import Mathlib

/-!
Verification of the space-apod gateway.

The repository has two server variants:
* `index.js` — normalizes the upstream APOD payload (image / video shapes,
  gif avoidance) and maps upstream failures to 400 / 502 at the route level.
* the cached variant (`part_000`) — keeps a process-wide `Map` cache with a
  one-hour TTL, validates the `date` query parameter against
  `^\d{4}-\d{2}-\d{2}$`, passes the raw upstream JSON through, and echoes the
  upstream status code on failure (`err.status || 500`).

Both are embedded below as pure Lean functions; the upstream HTTP exchange is
an explicit `UpstreamResponse` argument and the cache is passed as state.
-/

namespace SpaceApod

/-- JavaScript `x || d` for an optional string: `undefined` and the empty
string are falsy and select the default. -/
def jsOrStr (x : Option String) (d : String) : String :=
  match x with
  | none => d
  | some s => if s = "" then d else s

/-- JavaScript `s || d` for a present string (only `""` is falsy). -/
def jsOrStrS (s d : String) : String :=
  if s = "" then d else s

/-- JavaScript `x || null` for an optional string field. -/
def jsOrNull (x : Option String) : Option String :=
  match x with
  | none => none
  | some s => if s = "" then none else some s

/-- JavaScript falsiness of an optional string route parameter
(`undefined` or `""`). -/
def jsFalsyStr (x : Option String) : Bool :=
  match x with
  | none => true
  | some s => s == ""

/-- The parsed upstream APOD JSON payload: the fields the servers read
(`date, title, explanation, media_type, url, hdurl, copyright`); optional
fields may be absent from the JSON. -/
structure ApodPayload where
  date : String
  title : String
  explanation : String
  media_type : Option String
  url : String
  hdurl : Option String
  copyright : Option String
deriving DecidableEq, Repr

/-- Media-type-specific fields of the normalized result in `index.js`:
the image branch carries `imageUrl`, `hdImageUrl` and a nullable `gifUrl`;
every other media type carries a single `mediaUrl`. -/
inductive MediaFields where
  | image (imageUrl : String) (hdImageUrl : String) (gifUrl : Option String)
  | media (mediaUrl : String)
deriving DecidableEq, Repr

/-- The normalized result built by `fetchApod` in `index.js`. -/
structure NormalizedResult where
  date : String
  title : String
  explanation : String
  copyright : Option String
  mediaType : String
  source : String
  fields : MediaFields
deriving DecidableEq, Repr

/-- `s.toLowerCase().endsWith(".gif")`: the last four characters of the
lower-cased string are `.gif`. -/
def endsWithGifCI (s : String) : Bool :=
  (s.toList.map Char.toLower).reverse.take 4 == ['f', 'i', 'g', '.']

/-- The normalization step of `fetchApod` in `index.js` (lines 51–85),
applied to a successfully parsed upstream payload. -/
def normalizeApod (data : ApodPayload) : NormalizedResult :=
  let mediaType := jsOrStr data.media_type "image"
  if mediaType = "image" then
    let hdUrl := jsOrStr data.hdurl data.url
    if hdUrl != "" && endsWithGifCI hdUrl then
      { date := data.date, title := data.title, explanation := data.explanation,
        copyright := jsOrNull data.copyright, mediaType := mediaType,
        source := "nasa-apod",
        fields := .image data.url data.url (some hdUrl) }
    else
      { date := data.date, title := data.title, explanation := data.explanation,
        copyright := jsOrNull data.copyright, mediaType := mediaType,
        source := "nasa-apod",
        fields := .image data.url hdUrl none }
  else
    { date := data.date, title := data.title, explanation := data.explanation,
      copyright := jsOrNull data.copyright, mediaType := mediaType,
      source := "nasa-apod",
      fields := .media data.url }

/-- The body text of an upstream HTTP response, by whether `JSON.parse`
succeeds on it. -/
inductive Body where
  | json (payload : ApodPayload)
  | invalid (raw : String)
deriving DecidableEq, Repr

/-- The outcome of the single upstream `fetch`: a network failure (the
promise rejects) or an HTTP response with a status and a body. -/
inductive UpstreamResponse where
  | networkError
  | http (status : Nat) (body : Body)
deriving DecidableEq, Repr

/-- `res.ok` in node-fetch: status in the range 200–299. -/
def statusOk (s : Nat) : Bool :=
  200 ≤ s && s ≤ 299

/-- Errors thrown by `fetchApod` in `index.js`: a rejected fetch, an error
carrying `statusCode` for a non-ok upstream status, or a `JSON.parse`
failure (which carries no status code). -/
inductive FetchErrorA where
  | network
  | upstream (statusCode : Nat)
  | parse
deriving DecidableEq, Repr

/-- `fetchApod` of `index.js` (lines 30–86), as a function of the upstream
exchange. -/
def fetchApodA (resp : UpstreamResponse) : Except FetchErrorA NormalizedResult :=
  match resp with
  | .networkError => .error .network
  | .http status body =>
    if statusOk status then
      match body with
      | .json data => .ok (normalizeApod data)
      | .invalid _ => .error .parse
    else
      .error (.upstream status)

/-- The `err.payload` attached in the cached variant when upstream returns a
non-ok status: the error body parsed as JSON when possible, else
`{ error: text }`. -/
inductive ErrPayload where
  | passthrough (p : ApodPayload)
  | errorText (t : String)
deriving DecidableEq, Repr

def errPayloadOf : Body → ErrPayload
  | .json p => .passthrough p
  | .invalid t => .errorText t

/-- JSON bodies the routes can answer with. -/
inductive RespBody where
  | apodRaw (p : ApodPayload)
  | apodNorm (r : NormalizedResult)
  | errMsg (msg : String)
  | errPayload (p : ErrPayload)
  | healthOk
  | debugInfo (usingDemoKey : Bool) (src : String) (keyPreview : String)
deriving DecidableEq, Repr

/-- An HTTP response sent to the client. -/
structure HttpResponse where
  status : Nat
  body : RespBody
deriving DecidableEq, Repr

/-- `err.statusCode` of an `index.js` fetch error: set only on the
non-ok-status path. -/
def errStatusCodeA : FetchErrorA → Option Nat
  | .upstream sc => some sc
  | _ => none

/-- `GET /space/apod/date` of `index.js` (lines 102–127): the response
together with the number of upstream calls performed. -/
def dateRouteA (dateParam : Option String) (resp : UpstreamResponse) :
    HttpResponse × Nat :=
  if jsFalsyStr dateParam then
    (⟨400, .errMsg "Missing required query parameter \x27date\x27 (YYYY-MM-DD)"⟩, 0)
  else
    match fetchApodA resp with
    | .ok r => (⟨200, .apodNorm r⟩, 1)
    | .error e =>
      if errStatusCodeA e = some 400 then
        (⟨400, .errMsg "No APOD available for this date. APOD images start at 1995-06-16."⟩, 1)
      else
        (⟨502, .errMsg "Failed to fetch APOD for given date"⟩, 1)

/-- `GET /space/apod/today` of `index.js` (lines 91–99). -/
def todayRouteA (resp : UpstreamResponse) : HttpResponse × Nat :=
  match fetchApodA resp with
  | .ok r => (⟨200, .apodNorm r⟩, 1)
  | .error _ => (⟨502, .errMsg "Failed to fetch APOD for today"⟩, 1)

/-- One entry of the cached variant: `{ data, fetchedAt }`, where `data` is
the raw parsed upstream JSON. -/
structure CacheEntry where
  data : ApodPayload
  fetchedAt : Nat
deriving DecidableEq, Repr

/-- The process-wide `apodCache` `Map`, keyed by `"today"` or a date string,
embedded as an association list in insertion order. -/
abbrev Cache := List (String × CacheEntry)

/-- `Map.get`. -/
def cacheGet : Cache → String → Option CacheEntry
  | [], _ => none
  | (k', v) :: rest, k => if k' = k then some v else cacheGet rest k

/-- `Map.set`: replaces the value in place when the key exists, otherwise
appends the binding. -/
def cacheSet : Cache → String → CacheEntry → Cache
  | [], k, v => [(k, v)]
  | (k', v') :: rest, k, v =>
    if k' = k then (k, v) :: rest else (k', v') :: cacheSet rest k v

/-- `CACHE_TTL_MS = 60 * 60 * 1000` (one hour), in milliseconds. -/
def CACHE_TTL_MS : Nat := 60 * 60 * 1000

/-- `NASA_API_KEY = process.env.NASA_API_KEY || "DEMO_KEY"`, as a function of
the environment variable. -/
def nasaApiKey (envKey : Option String) : String :=
  jsOrStr envKey "DEMO_KEY"

/-- Errors thrown by `fetchApod` of the cached variant: the missing-key
guard, the NASA error carrying `status` and `payload`, a rejected fetch, or
a `JSON.parse` failure on a successful body (the latter two carry no
status and no payload). -/
inductive FetchErrorB where
  | noKey
  | nasa (status : Nat) (payload : ErrPayload)
  | network
  | parse
deriving DecidableEq, Repr

/-- Result of one call of the cached variant's `fetchApod`. -/
inductive OutcomeB where
  | ok (p : ApodPayload)
  | err (e : FetchErrorB)
deriving DecidableEq, Repr

/-- One call of the cached variant's `fetchApod`: the cache after the call,
the returned value or thrown error, and how many upstream calls were made. -/
structure FetchResultB where
  cache : Cache
  outcome : OutcomeB
  upstreamCalls : Nat
deriving DecidableEq, Repr

/-- The part of the cached variant's `fetchApod` after a cache miss (lines
50–78): one upstream call, then either the error path (cache untouched) or
the store-and-return path. -/
def fetchApodBUpstream (cacheKey : String) (now : Nat) (cache : Cache)
    (resp : UpstreamResponse) : FetchResultB :=
  match resp with
  | .networkError => ⟨cache, .err .network, 1⟩
  | .http status body =>
    if statusOk status then
      match body with
      | .json data => ⟨cacheSet cache cacheKey ⟨data, now⟩, .ok data, 1⟩
      | .invalid _ => ⟨cache, .err .parse, 1⟩
    else
      ⟨cache, .err (.nasa status (errPayloadOf body)), 1⟩

/-- `fetchApod` of the cached variant (lines 35–79): key check, cache
lookup with TTL, then the upstream exchange. -/
def fetchApodB (envKey : Option String) (date : Option String) (now : Nat)
    (cache : Cache) (resp : UpstreamResponse) : FetchResultB :=
  if nasaApiKey envKey = "" then
    ⟨cache, .err .noKey, 0⟩
  else
    match cacheGet cache (jsOrStr date "today") with
    | some entry =>
      if now - entry.fetchedAt < CACHE_TTL_MS then
        ⟨cache, .ok entry.data, 0⟩
      else
        fetchApodBUpstream (jsOrStr date "today") now cache resp
    | none => fetchApodBUpstream (jsOrStr date "today") now cache resp

/-- `res.status(err.status || 500)` in the cached variant's route handlers. -/
def errStatusB : FetchErrorB → Nat
  | .nasa s _ => if s = 0 then 500 else s
  | _ => 500

/-- `.json(err.payload || { error: "Internal server error" })` in the cached
variant's route handlers. -/
def errBodyB : FetchErrorB → RespBody
  | .nasa _ p => .errPayload p
  | _ => .errMsg "Internal server error"

/-- Result of one request against a route of the cached variant. -/
structure RouteResultB where
  resp : HttpResponse
  cache : Cache
  upstreamCalls : Nat
deriving DecidableEq, Repr

/-- `GET /space/apod/today` of the cached variant (lines 86–96). -/
def todayRouteB (envKey : Option String) (now : Nat) (cache : Cache)
    (resp : UpstreamResponse) : RouteResultB :=
  let r := fetchApodB envKey none now cache resp
  match r.outcome with
  | .ok p => ⟨⟨200, .apodRaw p⟩, r.cache, r.upstreamCalls⟩
  | .err e => ⟨⟨errStatusB e, errBodyB e⟩, r.cache, r.upstreamCalls⟩

/-- The route's `^\d{4}-\d{2}-\d{2}$` test: ten characters, digits with
dashes at positions 4 and 7. -/
def isValidDateFormat (s : String) : Bool :=
  match s.toList with
  | [a, b, c, d, h1, e, f, h2, g, h] =>
    a.isDigit && b.isDigit && c.isDigit && d.isDigit && h1 == '-' &&
    e.isDigit && f.isDigit && h2 == '-' && g.isDigit && h.isDigit
  | _ => false

/-- `GET /space/apod/date` of the cached variant (lines 99–122): missing
parameter check, format check, then the fetch with error passthrough. -/
def dateRouteB (envKey : Option String) (dateParam : Option String) (now : Nat)
    (cache : Cache) (resp : UpstreamResponse) : RouteResultB :=
  if jsFalsyStr dateParam then
    ⟨⟨400, .errMsg "Missing \x27date\x27 query parameter"⟩, cache, 0⟩
  else if !isValidDateFormat (dateParam.getD "") then
    ⟨⟨400, .errMsg "Invalid date format. Use YYYY-MM-DD."⟩, cache, 0⟩
  else
    let r := fetchApodB envKey dateParam now cache resp
    match r.outcome with
    | .ok p => ⟨⟨200, .apodRaw p⟩, r.cache, r.upstreamCalls⟩
    | .err e => ⟨⟨errStatusB e, errBodyB e⟩, r.cache, r.upstreamCalls⟩

/-- `GET /healthz` of the cached variant (lines 125–127): `res.json` with
the default 200 status. -/
def healthzRouteB : HttpResponse :=
  ⟨200, .healthOk⟩

/-- `GET /debug/apod-key` of the cached variant (lines 130–139). -/
def debugApodKeyRouteB (envKey : Option String) : HttpResponse :=
  let key := jsOrStrS (nasaApiKey envKey) "DEMO_KEY"
  let isDemo : Bool := key == "DEMO_KEY"
  ⟨200, .debugInfo isDemo
    (if isDemo then "fallback DEMO_KEY" else "env var NASA_API_KEY")
    (if isDemo then "DEMO_KEY" else key.take 4 ++ "***")⟩

/-- A concrete image payload used to instantiate theorems. -/
def samplePayload : ApodPayload :=
  { date := "2024-01-02", title := "Title", explanation := "Expl",
    media_type := some "image", url := "http://img.jpg",
    hdurl := some "http://hd.jpg", copyright := none }

/-- A concrete video payload used to instantiate theorems. -/
def sampleVideoPayload : ApodPayload :=
  { date := "2024-01-03", title := "V", explanation := "E",
    media_type := some "video", url := "http://v.example",
    hdurl := none, copyright := none }

/-- A concrete payload with no `media_type` field, used to instantiate
theorems. -/
def sampleNoTypePayload : ApodPayload :=
  { date := "2024-01-04", title := "N", explanation := "E",
    media_type := none, url := "http://n.jpg",
    hdurl := none, copyright := none }

/- ===================  Helper lemmas  =================== -/

/-- The configured key is never the empty string: the environment value or
the `DEMO_KEY` fallback. -/
theorem nasaApiKey_ne_empty (e : Option String) : nasaApiKey e ≠ "" := by
  cases e with
  | none => simp [nasaApiKey, jsOrStr]
  | some s =>
    by_cases h : s = ""
    · simp [nasaApiKey, jsOrStr, h]
    · simp [nasaApiKey, jsOrStr, h]

/-- A provided nonempty date string is its own cache key. -/
theorem jsOrStr_some_ne (s d : String) (h : s ≠ "") : jsOrStr (some s) d = s := by
  simp [jsOrStr, h]

/-- `Map.set` then `Map.get` at the same key yields the new value. -/
theorem cacheGet_cacheSet_self (c : Cache) (k : String) (v : CacheEntry) :
    cacheGet (cacheSet c k v) k = some v := by
  induction c with
  | nil => simp [cacheSet, cacheGet]
  | cons hd tl ih =>
    obtain ⟨k', v'⟩ := hd
    by_cases h : k' = k
    · simp [cacheSet, h, cacheGet]
    · simp [cacheSet, h, cacheGet, ih]

/-- `Map.set` leaves every other key's binding unchanged. -/
theorem cacheGet_cacheSet_of_ne (c : Cache) (k k' : String) (v : CacheEntry)
    (h : k' ≠ k) : cacheGet (cacheSet c k v) k' = cacheGet c k' := by
  have hne : k ≠ k' := Ne.symm h
  induction c with
  | nil => simp [cacheSet, cacheGet, hne]
  | cons hd tl ih =>
    obtain ⟨k0, v0⟩ := hd
    by_cases h0 : k0 = k
    · subst h0
      simp [cacheSet, cacheGet, hne]
    · simp [cacheSet, cacheGet, h0, ih]

/-- `Map.set` never removes a binding. -/
theorem cacheGet_cacheSet_isSome (c : Cache) (k k' : String) (v : CacheEntry)
    (h : cacheGet c k' ≠ none) : cacheGet (cacheSet c k v) k' ≠ none := by
  by_cases hk : k' = k
  · subst hk
    rw [cacheGet_cacheSet_self]
    simp
  · rw [cacheGet_cacheSet_of_ne c k k' v hk]
    exact h

/- ===================  Claim theorems  =================== -/

/-- C1: if the cache holds an entry for the computed key (the given date, or
`"today"` when none is given) and `now - fetchedAt` is strictly below the
one-hour TTL, then `fetchApod` of the cached variant returns that entry's
stored data, performs no upstream call (the result does not depend on the
upstream response at all), and leaves the cache unchanged — so a second call
within the TTL window returns identical output with no new upstream call. -/
theorem fetchApodB_cache_hit (envKey date : Option String) (now : Nat)
    (cache : Cache) (resp : UpstreamResponse) (entry : CacheEntry)
    (hget : cacheGet cache (jsOrStr date "today") = some entry)
    (hfresh : now - entry.fetchedAt < CACHE_TTL_MS) :
    fetchApodB envKey date now cache resp = ⟨cache, .ok entry.data, 0⟩ := by
  unfold fetchApodB
  rw [if_neg (nasaApiKey_ne_empty envKey), hget]
  simp [hfresh]

/-- Witness for C1: a concrete fresh cache entry is served even when the
network is down. -/
theorem fetchApodB_cache_hit_witness :
    fetchApodB (some "abcd1234") (some "2024-01-02") 1000
        [("2024-01-02", ⟨samplePayload, 500⟩)] .networkError
      = ⟨[("2024-01-02", ⟨samplePayload, 500⟩)], .ok samplePayload, 0⟩ :=
  fetchApodB_cache_hit (some "abcd1234") (some "2024-01-02") 1000
    [("2024-01-02", ⟨samplePayload, 500⟩)] .networkError ⟨samplePayload, 500⟩
    (by decide) (by decide)

/-- The image branch of the normalization in one equation: the preferred HD
URL is `hdurl || url`; a non-empty preferred URL ending in `.gif` is moved
to `gifUrl` and the HD field falls back to `url`. -/
theorem normalizeApod_fields_of_image (data : ApodPayload)
    (himg : jsOrStr data.media_type "image" = "image") :
    (normalizeApod data).fields =
      (if jsOrStr data.hdurl data.url != "" &&
          endsWithGifCI (jsOrStr data.hdurl data.url) then
        .image data.url data.url (some (jsOrStr data.hdurl data.url))
      else
        .image data.url (jsOrStr data.hdurl data.url) none) := by
  simp only [normalizeApod, himg, if_true]
  split <;> simp_all

/-- C2 counterexample: with upstream payload `{url: "anim.gif"}` (no
`hdurl`), the normalized HD field is `"anim.gif"`, an animated `.gif`
asset — the claim "the high-definition field is never an animated (.gif)
asset" is false. -/
theorem normalizeApod_hd_gif_cex :
    (normalizeApod ⟨"2024-01-02", "T", "E", none, "anim.gif", none, none⟩).fields
      = .image "anim.gif" "anim.gif" (some "anim.gif")
    ∧ endsWithGifCI "anim.gif" = true := by
  constructor
  · decide
  · decide

/-- C2 (amended): for an image payload the preferred HD URL is the upstream
`hdurl`, falling back to the display `url` when `hdurl` is absent; when that
preferred URL is a non-empty `.gif` the HD field instead equals the display
URL and the animated URL is exposed in `gifUrl`; consequently the HD field
is never a `.gif` asset unless the display URL itself is one. -/
theorem normalizeApod_image_hd (data : ApodPayload)
    (himg : jsOrStr data.media_type "image" = "image") :
    ((jsOrStr data.hdurl data.url != "" &&
        endsWithGifCI (jsOrStr data.hdurl data.url)) = true →
      (normalizeApod data).fields
        = .image data.url data.url (some (jsOrStr data.hdurl data.url)))
    ∧ ((jsOrStr data.hdurl data.url != "" &&
        endsWithGifCI (jsOrStr data.hdurl data.url)) = false →
      (normalizeApod data).fields
        = .image data.url (jsOrStr data.hdurl data.url) none)
    ∧ (∀ iu hd gu, (normalizeApod data).fields = .image iu hd gu →
        endsWithGifCI data.url = false → endsWithGifCI hd = false) := by
  have hch := normalizeApod_fields_of_image data himg
  refine ⟨fun hgif => ?_, fun hgif => ?_, fun iu hd gu hf hurl => ?_⟩
  · rw [hch, if_pos hgif]
  · rw [hch, hgif]
    simp
  · rw [hch] at hf
    by_cases hgif : (jsOrStr data.hdurl data.url != "" &&
        endsWithGifCI (jsOrStr data.hdurl data.url)) = true
    · rw [if_pos hgif] at hf
      cases hf
      exact hurl
    · rw [if_neg hgif] at hf
      cases hf
      by_cases hemp : jsOrStr data.hdurl data.url = ""
      · rw [hemp]
        decide
      · cases hg : endsWithGifCI (jsOrStr data.hdurl data.url) with
        | false => rfl
        | true => exact absurd (by simp [hemp, hg]) hgif

/-- Witness for C2: on a payload whose `hdurl` is a `.gif`, the HD field is
the display URL and `gifUrl` carries the animated URL; on a plain payload
the HD field is the `hdurl`. -/
theorem normalizeApod_image_hd_witness :
    (normalizeApod ⟨"2024-01-05", "T", "E", none, "img.jpg",
        some "anim.gif", none⟩).fields
      = .image "img.jpg" "img.jpg" (some "anim.gif")
    ∧ (normalizeApod samplePayload).fields
      = .image "http://img.jpg" "http://hd.jpg" none :=
  ⟨(normalizeApod_image_hd _ (by decide)).1 (by decide),
   (normalizeApod_image_hd samplePayload (by decide)).2.1 (by decide)⟩

/-- C3 counterexample: in the cached variant, a validated request for
`2024-01-02` against an upstream that answers 503 yields a gateway response
with status 503, not the claimed 502. -/
theorem dateRouteB_upstream_503_cex :
    (dateRouteB (some "abcd1234") (some "2024-01-02") 0 []
        (.http 503 (.invalid "oops"))).resp.status = 503
    ∧ (503 : Nat) ≠ 502 := by
  constructor
  · decide
  · decide

/-- C3 (amended): for a validated date, the normalizing variant
(`index.js`) maps a non-ok upstream status `s` to 400 when `s = 400` and to
502 otherwise, and maps network failures and JSON-parse failures to 502;
the cached variant instead responds with the upstream status code itself
(`err.status || 500`), answering 500 — not 502 — for network and parse
failures, for which no status is available. -/
theorem date_route_error_mapping (d : String) (hd : d ≠ "")
    (hv : isValidDateFormat d = true) (s : Nat) (b : Body)
    (hs : statusOk s = false) (envKey : Option String) (now : Nat)
    (cache : Cache) (t raw : String)
    (hmiss : cacheGet cache d = none) :
    (dateRouteA (some d) (.http s b)).1.status = (if s = 400 then 400 else 502)
    ∧ (dateRouteA (some d) .networkError).1.status = 502
    ∧ (∀ s2, statusOk s2 = true →
        (dateRouteA (some d) (.http s2 (.invalid t))).1.status = 502)
    ∧ (dateRouteB envKey (some d) now cache (.http s b)).resp.status
        = (if s = 0 then 500 else s)
    ∧ (dateRouteB envKey (some d) now cache .networkError).resp.status = 500
    ∧ (∀ s2, statusOk s2 = true →
        (dateRouteB envKey (some d) now cache
          (.http s2 (.invalid raw))).resp.status = 500) := by
  have hfal : jsFalsyStr (some d) = false := by simp [jsFalsyStr, hd]
  have hkey : jsOrStr (some d) "today" = d := jsOrStr_some_ne d "today" hd
  refine ⟨?_, ?_, fun s2 hs2 => ?_, ?_, ?_, fun s2 hs2 => ?_⟩
  · simp only [dateRouteA, hfal, Bool.false_eq_true, if_false, fetchApodA, hs,
      Bool.false_eq_true, if_false, errStatusCodeA]
    by_cases h4 : s = 400
    · subst h4
      simp
    · simp [h4, Option.some_inj]
  · simp [dateRouteA, hfal, fetchApodA, errStatusCodeA]
  · simp [dateRouteA, hfal, fetchApodA, hs2, errStatusCodeA]
  · simp only [dateRouteB, hfal, Bool.false_eq_true, if_false, hv,
      Bool.not_true, fetchApodB, nasaApiKey_ne_empty envKey, if_neg,
      hkey, hmiss, fetchApodBUpstream, hs, Bool.false_eq_true, if_false]
    simp [errStatusB, hv]
  · simp only [dateRouteB, hfal, Bool.false_eq_true, if_false, hv,
      Bool.not_true, fetchApodB, hkey, hmiss, fetchApodBUpstream]
    simp [nasaApiKey_ne_empty envKey, errStatusB, hv]
  · simp only [dateRouteB, hfal, Bool.false_eq_true, if_false, hv,
      Bool.not_true, fetchApodB, hkey, hmiss, fetchApodBUpstream, hs2]
    simp [nasaApiKey_ne_empty envKey, errStatusB, hv]

/-- Witness for C3: concrete instances of each mapping — upstream 503 gives
502 in the normalizing variant but 503 in the cached variant, and a network
failure gives 502 and 500 respectively. -/
theorem date_route_error_mapping_witness :
    (dateRouteA (some "2024-01-02") (.http 503 (.invalid "x"))).1.status = 502
    ∧ (dateRouteA (some "2024-01-02") .networkError).1.status = 502
    ∧ (dateRouteB none (some "2024-01-02") 0 []
        (.http 503 (.invalid "x"))).resp.status = 503
    ∧ (dateRouteB none (some "2024-01-02") 0 [] .networkError).resp.status = 500 := by
  have h := date_route_error_mapping "2024-01-02" (by decide) (by decide) 503
    (.invalid "x") (by decide) none 0 [] "x" "x" (by decide)
  exact ⟨by simpa using h.1, h.2.1, by simpa using h.2.2.2.1, h.2.2.2.2.1⟩

/-- C4: a successful payload whose effective media type is not `"image"`
is normalized with exactly the generic `mediaUrl` field and no
image-specific fields; the `mediaType` field reproduces the upstream value,
and an unspecified `media_type` is treated as `"image"`. -/
theorem normalizeApod_non_image (data : ApodPayload) :
    (jsOrStr data.media_type "image" ≠ "image" →
      (normalizeApod data).fields = .media data.url)
    ∧ (normalizeApod data).mediaType = jsOrStr data.media_type "image"
    ∧ (data.media_type = none → (normalizeApod data).mediaType = "image") := by
  refine ⟨fun hne => ?_, ?_, fun hnone => ?_⟩
  · simp [normalizeApod, hne]
  · by_cases hmt : jsOrStr data.media_type "image" = "image"
    · simp only [normalizeApod, hmt, eq_self_iff_true, if_true]
      split <;> rfl
    · simp only [normalizeApod, if_neg hmt]
  · simp only [normalizeApod, hnone, jsOrStr, eq_self_iff_true, if_true]
    split <;> rfl

/-- Witness for C4: a concrete video payload gets a lone `mediaUrl`, and a
concrete payload without `media_type` is typed `"image"`. -/
theorem normalizeApod_non_image_witness :
    (normalizeApod sampleVideoPayload).fields = .media "http://v.example"
    ∧ (normalizeApod sampleNoTypePayload).mediaType = "image" :=
  ⟨(normalizeApod_non_image sampleVideoPayload).1 (by decide),
   (normalizeApod_non_image sampleNoTypePayload).2.2 rfl⟩

/-- C5: on a cache miss (or stale entry), a successful upstream response
makes `fetchApod` of the cached variant store, under the computed key, an
entry whose data is exactly the value returned to the caller and whose
timestamp is the current time, overwriting any prior binding in place; and
on every path no existing key is ever removed from the cache. -/
theorem fetchApodB_store_on_success (envKey date : Option String) (now : Nat)
    (cache : Cache) (s : Nat) (data : ApodPayload)
    (hs : statusOk s = true)
    (hmiss : ∀ e, cacheGet cache (jsOrStr date "today") = some e →
      CACHE_TTL_MS ≤ now - e.fetchedAt) :
    fetchApodB envKey date now cache (.http s (.json data))
      = ⟨cacheSet cache (jsOrStr date "today") ⟨data, now⟩, .ok data, 1⟩
    ∧ cacheGet (cacheSet cache (jsOrStr date "today") ⟨data, now⟩)
        (jsOrStr date "today") = some ⟨data, now⟩
    ∧ (∀ resp k, cacheGet cache k ≠ none →
        cacheGet (fetchApodB envKey date now cache resp).cache k ≠ none) := by
  refine ⟨?_, cacheGet_cacheSet_self cache _ _, fun resp k hk => ?_⟩
  · unfold fetchApodB
    rw [if_neg (nasaApiKey_ne_empty envKey)]
    cases hc : cacheGet cache (jsOrStr date "today") with
    | none => simp [fetchApodBUpstream, hs]
    | some e =>
      have hstale : ¬(now - e.fetchedAt < CACHE_TTL_MS) :=
        not_lt.mpr (hmiss e hc)
      simp [hstale, fetchApodBUpstream, hs]
  · unfold fetchApodB
    rw [if_neg (nasaApiKey_ne_empty envKey)]
    cases hc : cacheGet cache (jsOrStr date "today") with
    | none =>
      cases resp with
      | networkError => exact hk
      | http s2 b =>
        by_cases hs2 : statusOk s2 = true
        · cases b with
          | json p =>
            simp only [fetchApodBUpstream, hs2, if_true]
            exact cacheGet_cacheSet_isSome cache _ k _ hk
          | invalid t => simpa [fetchApodBUpstream, hs2] using hk
        · simpa [fetchApodBUpstream, hs2] using hk
    | some e =>
      by_cases hfr : now - e.fetchedAt < CACHE_TTL_MS
      · simpa [hfr] using hk
      · simp only [hfr, if_false]
        cases resp with
        | networkError => exact hk
        | http s2 b =>
          by_cases hs2 : statusOk s2 = true
          · cases b with
            | json p =>
              simp only [fetchApodBUpstream, hs2, if_true]
              exact cacheGet_cacheSet_isSome cache _ k _ hk
            | invalid t => simpa [fetchApodBUpstream, hs2] using hk
          · simpa [fetchApodBUpstream, hs2] using hk

/-- Witness for C5: a stale entry for `2024-01-02` is overwritten in place
with the fresh payload and timestamp, and the returned value is the stored
one. -/
theorem fetchApodB_store_on_success_witness :
    fetchApodB (some "abcd1234") (some "2024-01-02") 9000000
        [("2024-01-02", ⟨sampleVideoPayload, 10⟩)] (.http 200 (.json samplePayload))
      = ⟨[("2024-01-02", ⟨samplePayload, 9000000⟩)], .ok samplePayload, 1⟩ := by
  have h := fetchApodB_store_on_success (some "abcd1234") (some "2024-01-02")
    9000000 [("2024-01-02", ⟨sampleVideoPayload, 10⟩)] 200 samplePayload
    (by decide) (by decide)
  simpa using h.1

/-- C6: on `GET /space/apod/date`, a missing (or empty, hence falsy) `date`
parameter yields 400 with a descriptive error body in both variants, and in
the cached variant — the one implementing format validation — a date that
fails the `^\d{4}-\d{2}-\d{2}$` test yields 400; in each case the cache is
untouched and no upstream call is made. -/
theorem date_route_validation (envKey dp : Option String) (now : Nat)
    (cache : Cache) (resp : UpstreamResponse) :
    (jsFalsyStr dp = true →
      dateRouteB envKey dp now cache resp
        = ⟨⟨400, .errMsg "Missing \x27date\x27 query parameter"⟩, cache, 0⟩
      ∧ dateRouteA dp resp
        = (⟨400, .errMsg "Missing required query parameter \x27date\x27 (YYYY-MM-DD)"⟩, 0))
    ∧ (∀ d : String, d ≠ "" → isValidDateFormat d = false →
      dateRouteB envKey (some d) now cache resp
        = ⟨⟨400, .errMsg "Invalid date format. Use YYYY-MM-DD."⟩, cache, 0⟩) := by
  refine ⟨fun hfal => ⟨?_, ?_⟩, fun d hne hbad => ?_⟩
  · simp [dateRouteB, hfal]
  · simp [dateRouteA, hfal]
  · have hfal : jsFalsyStr (some d) = false := by simp [jsFalsyStr, hne]
    simp [dateRouteB, hfal, hbad]

/-- Witness for C6: a missing parameter and the malformed date
`2020/07/14` each produce 400 without touching cache or upstream. -/
theorem date_route_validation_witness :
    dateRouteB none none 0 [] .networkError
      = ⟨⟨400, .errMsg "Missing \x27date\x27 query parameter"⟩, [], 0⟩
    ∧ dateRouteB none (some "2020/07/14") 0 [] .networkError
      = ⟨⟨400, .errMsg "Invalid date format. Use YYYY-MM-DD."⟩, [], 0⟩ :=
  ⟨((date_route_validation none none 0 [] .networkError).1 (by decide)).1,
   (date_route_validation none (some "2020/07/14") 0 [] .networkError).2
     "2020/07/14" (by decide) (by decide)⟩

/-- C7: every normalized result carries the upstream `date`, `title` and
`explanation`, the effective media type, the upstream copyright (null when
absent), and the literal source tag `"nasa-apod"`, for image and non-image
payloads alike. -/
theorem normalizeApod_base_fields (data : ApodPayload) :
    (normalizeApod data).date = data.date
    ∧ (normalizeApod data).title = data.title
    ∧ (normalizeApod data).explanation = data.explanation
    ∧ (normalizeApod data).mediaType = jsOrStr data.media_type "image"
    ∧ (normalizeApod data).copyright = jsOrNull data.copyright
    ∧ (data.copyright = none → (normalizeApod data).copyright = none)
    ∧ (normalizeApod data).source = "nasa-apod" := by
  have hbase : (normalizeApod data).date = data.date
      ∧ (normalizeApod data).title = data.title
      ∧ (normalizeApod data).explanation = data.explanation
      ∧ (normalizeApod data).mediaType = jsOrStr data.media_type "image"
      ∧ (normalizeApod data).copyright = jsOrNull data.copyright
      ∧ (normalizeApod data).source = "nasa-apod" := by
    unfold normalizeApod
    dsimp only
    split
    · split <;> exact ⟨rfl, rfl, rfl, rfl, rfl, rfl⟩
    · exact ⟨rfl, rfl, rfl, rfl, rfl, rfl⟩
  obtain ⟨h1, h2, h3, h4, h5, h6⟩ := hbase
  refine ⟨h1, h2, h3, h4, h5, fun hnone => ?_, h6⟩
  rw [h5, hnone]
  rfl

/-- Witness for C7: the copyright-absent implication at a concrete
payload. -/
theorem normalizeApod_base_fields_witness :
    (normalizeApod samplePayload).copyright = none
    ∧ (normalizeApod samplePayload).source = "nasa-apod" :=
  ⟨(normalizeApod_base_fields samplePayload).2.2.2.2.2.1 rfl,
   (normalizeApod_base_fields samplePayload).2.2.2.2.2.2⟩

/-- The upstream part of the cached fetch never mutates the cache on an
error outcome. -/
theorem fetchApodBUpstream_error_cache (ck : String) (now : Nat)
    (cache : Cache) (resp : UpstreamResponse) (e : FetchErrorB)
    (herr : (fetchApodBUpstream ck now cache resp).outcome = .err e) :
    (fetchApodBUpstream ck now cache resp).cache = cache := by
  cases resp with
  | networkError => rfl
  | http s b =>
    by_cases hs : statusOk s = true
    · cases b with
      | json p => simp [fetchApodBUpstream, hs] at herr
      | invalid t => simp [fetchApodBUpstream, hs]
    · simp [fetchApodBUpstream, hs]

/-- C9: whenever `fetchApod` of the cached variant fails — missing key,
non-ok upstream status, network failure, or JSON-parse failure — the cache
after the call is exactly the cache before it: no entry is created,
overwritten, or removed on any error path. -/
theorem fetchApodB_error_preserves_cache (envKey date : Option String)
    (now : Nat) (cache : Cache) (resp : UpstreamResponse) (e : FetchErrorB)
    (herr : (fetchApodB envKey date now cache resp).outcome = .err e) :
    (fetchApodB envKey date now cache resp).cache = cache := by
  unfold fetchApodB at herr ⊢
  by_cases hk : nasaApiKey envKey = ""
  · simp [hk]
  · rw [if_neg hk] at herr ⊢
    cases hc : cacheGet cache (jsOrStr date "today") with
    | none =>
      rw [hc] at herr
      exact fetchApodBUpstream_error_cache _ _ _ _ _ herr
    | some entry =>
      rw [hc] at herr
      dsimp only at herr ⊢
      by_cases hf : now - entry.fetchedAt < CACHE_TTL_MS
      · simp [hf] at herr
      · rw [if_neg hf] at herr ⊢
        exact fetchApodBUpstream_error_cache _ _ _ _ _ herr

/-- Witness for C9: a network failure on an empty cache leaves the cache
empty. -/
theorem fetchApodB_error_preserves_cache_witness :
    (fetchApodB (some "abcd1234") (some "2024-01-02") 0 [] .networkError).cache
      = [] :=
  fetchApodB_error_preserves_cache (some "abcd1234") (some "2024-01-02") 0 []
    .networkError .network (by decide)

/-- C10: the `GET /debug/apod-key` response is a function of whether the
configured key is `DEMO_KEY` and of its first four characters only: two
configurations with non-demo keys sharing a four-character front yield
identical responses, and that response exposes exactly those four
characters followed by `"***"`. -/
theorem debug_key_noninterference (e1 e2 : Option String)
    (h1 : nasaApiKey e1 ≠ "DEMO_KEY") (h2 : nasaApiKey e2 ≠ "DEMO_KEY")
    (hp : (nasaApiKey e1).take 4 = (nasaApiKey e2).take 4) :
    debugApodKeyRouteB e1 = debugApodKeyRouteB e2
    ∧ debugApodKeyRouteB e1
      = ⟨200, .debugInfo false "env var NASA_API_KEY"
          ((nasaApiKey e1).take 4 ++ "***")⟩ := by
  have hk1 : jsOrStrS (nasaApiKey e1) "DEMO_KEY" = nasaApiKey e1 := by
    simp [jsOrStrS, nasaApiKey_ne_empty e1]
  have hk2 : jsOrStrS (nasaApiKey e2) "DEMO_KEY" = nasaApiKey e2 := by
    simp [jsOrStrS, nasaApiKey_ne_empty e2]
  have hr1 : debugApodKeyRouteB e1
      = ⟨200, .debugInfo false "env var NASA_API_KEY"
          ((nasaApiKey e1).take 4 ++ "***")⟩ := by
    simp [debugApodKeyRouteB, hk1, h1]
  have hr2 : debugApodKeyRouteB e2
      = ⟨200, .debugInfo false "env var NASA_API_KEY"
          ((nasaApiKey e2).take 4 ++ "***")⟩ := by
    simp [debugApodKeyRouteB, hk2, h2]
  refine ⟨?_, hr1⟩
  rw [hr1, hr2, hp]

/-- Witness for C10: two distinct non-demo keys agreeing on their first
four characters get byte-identical debug responses. -/
theorem debug_key_noninterference_witness :
    debugApodKeyRouteB (some "abcd1234") = debugApodKeyRouteB (some "abcdXYZ")
    ∧ debugApodKeyRouteB (some "abcd1234")
      = ⟨200, .debugInfo false "env var NASA_API_KEY"
          ((nasaApiKey (some "abcd1234")).take 4 ++ "***")⟩ :=
  debug_key_noninterference (some "abcd1234") (some "abcdXYZ")
    (by decide) (by decide) (by decide)

/-- C8: `GET /healthz` of the cached variant answers 200 with body
`{status: "ok"}`; the handler reads neither the upstream nor the cache, so
the response is this constant regardless of either. -/
theorem healthz_always_ok : healthzRouteB = ⟨200, .healthOk⟩ := rfl

end SpaceApod
